import Mathlib

/-!
# Shallow embedding of the open-zengee lighting bridge

This file embeds the protocol-decoding and device-control layer of the
open-zengee repository (`openmagic.py`, `zengeeled.py`, `zwdl.py`) in Lean 4
and proves properties of the embedded code.

Conventions of the embedding:
* UDP payloads are `List Nat` (each entry one byte of the datagram).
* Python `data[i:j]` becomes `(data.drop i).take (j - i)`; Python indexing on a
  length-checked list becomes `List.getD` (the default is unreachable under the
  length guard, mirroring Python's bounds-checked indexing).
* A fallible driver call (`bulb.turnOff()`, `bulb.setRgb(...)`) is modelled by
  a `driverOk : Bool` parameter: `true` means the call returns normally,
  `false` means it raises, transferring control to the enclosing `except`
  block exactly as in the source.
* JSON values are the inductive `JVal`; the dynamic Python operations used by
  the HTTP handler (`in`, subscripting, `len`, truthiness) are modelled with
  `Except PyErr` so that a raised `TypeError`/`KeyError`/`IndexError` is an
  explicit error value.
-/

/-- JSON values as produced by `json.loads`. -/
inductive JVal where
  | null
  | bool (b : Bool)
  | num (n : Int)
  | str (s : String)
  | arr (xs : List JVal)
  | obj (fs : List (String × JVal))
deriving Repr, Inhabited

/-- Structural equality on `JVal` (Python `==` on the decoded JSON values). -/
def JVal.beq : JVal → JVal → Bool
  | .null, .null => true
  | .bool a, .bool b => a == b
  | .num a, .num b => a == b
  | .str a, .str b => a == b
  | .arr a, .arr b => beqList a b
  | .obj a, .obj b => beqObj a b
  | _, _ => false
where
  beqList : List JVal → List JVal → Bool
    | [], [] => true
    | x :: xs, y :: ys => JVal.beq x y && beqList xs ys
    | _, _ => false
  beqObj : List (String × JVal) → List (String × JVal) → Bool
    | [], [] => true
    | (k, v) :: xs, (l, w) :: ys => k == l && JVal.beq v w && beqObj xs ys
    | _, _ => false

theorem JVal.beq_iff_eq (a b : JVal) : JVal.beq a b = true ↔ a = b := by
  apply JVal.beq.induct
    (fun xs ys => JVal.beq.beqList xs ys = true ↔ xs = ys)
    (fun a b => JVal.beq a b = true ↔ a = b)
    (fun xs ys => JVal.beq.beqObj xs ys = true ↔ xs = ys)
  · simp [JVal.beq]
  · intro a b; simp [JVal.beq]
  · intro a b; simp [JVal.beq]
  · intro a b; simp [JVal.beq]
  · intro a b ih; simpa [JVal.beq] using ih
  · intro a b ih; simpa [JVal.beq] using ih
  · intro t x h1 h2 h3 h4 h5 h6
    cases t <;> cases x <;> simp_all [JVal.beq]
  · simp [JVal.beq.beqList]
  · intro x xs y ys ih1 ih2; simp [JVal.beq.beqList, ih1, ih2]
  · intro t x h1 h2
    cases t with
    | nil =>
      cases x with
      | nil => exact (h1 rfl rfl).elim
      | cons y ys => simp [JVal.beq.beqList]
    | cons a as =>
      cases x with
      | nil => simp [JVal.beq.beqList]
      | cons y ys => exact ((h2 _ _ _ _ rfl rfl).elim)
  · simp [JVal.beq.beqObj]
  · intro k v xs l w ys ih1 ih2; simp [JVal.beq.beqObj, ih1, ih2, and_assoc]
  · intro t x h1 h2
    cases t with
    | nil =>
      cases x with
      | nil => exact (h1 rfl rfl).elim
      | cons y ys => simp [JVal.beq.beqObj]
    | cons a as =>
      cases x with
      | nil => simp [JVal.beq.beqObj]
      | cons y ys => exact ((h2 _ _ _ _ _ _ rfl rfl).elim)

instance : DecidableEq JVal :=
  fun a b => decidable_of_iff (JVal.beq a b = true) (JVal.beq_iff_eq a b)

/-- The Python exceptions that the dynamic operations in
`WLEDEmulator.do_POST` can raise. -/
inductive PyErr where
  | typeError
  | keyError
  | indexError
  | valueError
deriving Repr, DecidableEq

/-- Python truthiness of a decoded JSON value. -/
def JVal.truthy : JVal → Bool
  | .null => false
  | .bool b => b
  | .num n => n ≠ 0
  | .str s => s ≠ ""
  | .arr xs => ¬ xs = []
  | .obj fs => ¬ fs = []

/-- First binding of a key in a JSON object (`json.loads` never produces
duplicate keys, so first-match lookup is exact). -/
def lookupField (fs : List (String × JVal)) (k : String) : Option JVal :=
  (fs.find? (fun p => p.1 = k)).map (fun p => p.2)

/-- Python `key in v` for a string key: key membership for a dict, element
equality for a list, substring test for a string, `TypeError` otherwise. -/
def pyContains (key : String) : JVal → Except PyErr Bool
  | .obj fs => .ok (lookupField fs key).isSome
  | .arr xs => .ok (xs.any (fun v => v = .str key))
  | .str s => .ok (s.containsSubstr key.toSubstring)
  | _ => .error .typeError

/-- Python `v[k]` for a string key `k`: dict lookup (`KeyError` when the key
is absent), `TypeError` on lists and strings (indices must be integers) and
on non-subscriptable values. -/
def pySubscriptStr : JVal → String → Except PyErr JVal
  | .obj fs, k =>
    match lookupField fs k with
    | some v => .ok v
    | none => .error .keyError
  | _, _ => .error .typeError

/-- Python `v[i]` for a non-negative integer index: list/string indexing with
`IndexError` out of bounds, `KeyError` on a JSON dict (whose keys are
strings), `TypeError` on non-subscriptable values. -/
def pySubscriptNat : JVal → Nat → Except PyErr JVal
  | .arr xs, i =>
    match xs.get? i with
    | some v => .ok v
    | none => .error .indexError
  | .str s, i =>
    match s.toList.get? i with
    | some c => .ok (.str (String.mk [c]))
    | none => .error .indexError
  | .obj _, _ => .error .keyError
  | _, _ => .error .typeError

/-- Python `len(v)`: defined for lists, strings and dicts, `TypeError`
otherwise. -/
def pyLen : JVal → Except PyErr Nat
  | .arr xs => .ok xs.length
  | .str s => .ok s.length
  | .obj fs => .ok fs.length
  | _ => .error .typeError

namespace Openmagic

/-- `E131Listener.receive_packet` (src/openmagic.py, lines 22–37), decoding
part: given the configured universe `expectedUniverse` and the received datagram `data`,
payloads shorter than 126 bytes yield `none`; otherwise the big-endian 16-bit
universe field at bytes [113:115) is compared with the configured universe
(mismatch yields `none`) and the whole tail `data[126:]` is returned. -/
def E131Listener.receive_packet (expectedUniverse : Nat) (data : List Nat) :
    Option (List Nat) :=
  if data.length < 126 then none
  else
    let received_universe := 256 * data.getD 113 0 + data.getD 114 0
    if received_universe ≠ expectedUniverse then none
    else some (data.drop 126)

/-- The mutable state of `ZenggeDevice` in src/openmagic.py relevant to
`flush`: only the `_is_active` flag (this variant keeps no last-frame or
update-count state). -/
structure DeviceState where
  isActive : Bool
deriving Repr, DecidableEq

/-- `ZenggeDevice.flush` (src/openmagic.py, lines 73–86): returns the argument
triple passed to `bulb.setRgb`, or `none` when no driver call is made.  The
source unpacks `r, g, b = rgb_data[0], rgb_data[1], rgb_data[2]` and then
calls `self.bulb.setRgb(g, r, b)` — red and green swapped. -/
def ZenggeDevice.flush (s : DeviceState) (rgb_data : List Nat) :
    Option (Nat × Nat × Nat) :=
  if ¬ s.isActive then none
  else if rgb_data.length < 3 then none
  else some (rgb_data.getD 1 0, rgb_data.getD 0 0, rgb_data.getD 2 0)

/-- `ZenggeDevice.deactivate` (identical in src/openmagic.py lines 65–71,
src/zengeeled.py lines 111–117 and src/zwdl.py lines 164–170): inside a
`try`, it calls `bulb.turnOff()` and then sets `_is_active = False`; the
`except` branch only logs.  `driverOk` models whether `turnOff` returns
normally; the result is the new value of the `_is_active` flag given its
prior value `isActive`. -/
def ZenggeDevice.deactivate (driverOk : Bool) (isActive : Bool) : Bool :=
  if driverOk then false else isActive

/-- The scanner state of `DeviceScanner` (identical in src/openmagic.py and
src/zwdl.py): the discovered address list `self.devices` and the optional
`self.active_device`. -/
structure ScannerState where
  devices : List String
  active_device : Option String
deriving Repr, DecidableEq

/-- `DeviceScanner.get_active_device` (src/openmagic.py lines 155–164,
src/zwdl.py lines 225–233).  When `self.devices` is empty the source first
calls `self.discover_devices()`, which under rate limiting or a scan error
may leave the list unchanged; `scanResult` is the value of `self.devices`
after that call.  Returns the value the method returns together with the
updated scanner state. -/
def DeviceScanner.get_active_device (scanResult : List String)
    (s : ScannerState) : Option String × ScannerState :=
  let s := if s.devices = [] then { s with devices := scanResult } else s
  if s.devices ≠ [] then
    let a :=
      match s.active_device with
      | none => s.devices.headD ""
      | some a => if a ∈ s.devices then a else s.devices.headD ""
    (some a, { s with active_device := some a })
  else (none, s)

end Openmagic

namespace Zengeeled

/-- `WLEDUDPListener.receive_packet` (src/zengeeled.py, lines 39–77),
decoding part: dispatch on the leading protocol tag byte with per-variant
length gates, then the final `if rgb_data:` truthiness test (a non-empty
list) before returning. -/
def WLEDUDPListener.receive_packet (data : List Nat) : Option (List Nat) :=
  if data.length < 2 then none
  else
    let protocol := data.getD 0 0
    let rgb_data : Option (List Nat) :=
      if protocol = 2 then
        if 5 ≤ data.length then some ((data.drop 2).take 3) else none
      else if protocol = 1 then
        if 6 ≤ data.length then some ((data.drop 3).take 3) else none
      else if protocol = 4 then
        if 7 ≤ data.length then some ((data.drop 4).take 3) else none
      else none
    match rgb_data with
    | some l => if l = [] then none else some l
    | none => none

/-- The mutable state of `ZenggeDevice` in src/zengeeled.py relevant to
`flush`: `_is_active`, `last_rgb` (initialised to `[0, 0, 0]`) and
`update_count` (initialised to `0`).  The element type is a parameter
because Python passes both byte lists (UDP path) and decoded JSON lists
(HTTP path) through the same method. -/
structure DeviceState (α : Type) where
  isActive : Bool
  lastRgb : List α
  updateCount : Nat
deriving Repr, DecidableEq

/-- Result of one `flush` call: the updated device state and the list of
argument triples of the `bulb.setRgb` calls attempted during the call
(a call that raises is still an attempted driver call). -/
structure FlushResult (α : Type) where
  state : DeviceState α
  setColorCalls : List (α × α × α)
deriving Repr, DecidableEq

/-- `ZenggeDevice.flush` (src/zengeeled.py, lines 119–143): no-op unless
active; no-op on data shorter than 3; no-op when `last_rgb == [r, g, b]`;
otherwise increments `update_count`, attempts `bulb.setRgb(r, g, b)` and,
only when that call returns normally (`driverOk`), sets
`last_rgb = [r, g, b]` — an exception from `setRgb` jumps to the `except`
block before `last_rgb` is assigned. -/
def ZenggeDevice.flush {α : Type} [DecidableEq α] [Inhabited α]
    (driverOk : Bool) (s : DeviceState α) (rgb_data : List α) : FlushResult α :=
  if ¬ s.isActive then ⟨s, []⟩
  else if rgb_data.length < 3 then ⟨s, []⟩
  else
    let r := rgb_data.getD 0 default
    let g := rgb_data.getD 1 default
    let b := rgb_data.getD 2 default
    if s.lastRgb = [r, g, b] then ⟨s, []⟩
    else
      let s1 := { s with updateCount := s.updateCount + 1 }
      if driverOk then
        ⟨{ s1 with lastRgb := [r, g, b] }, [(r, g, b)]⟩
      else
        ⟨s1, [(r, g, b)]⟩

/-- The body of the `try` block of `WLEDEmulator.do_POST` for path
`/json/state` (src/zengeeled.py, lines 212–222), applied to the already
`json.loads`-decoded body `state`.  Returns the value passed to
`device.flush`, if any; a raised exception is an `Except.error` and is
answered with status 500 by the caller.  The source evaluates
`state['seg'][0]` twice (once in the condition, once for `colors`); both
evaluations are pure here, so the subterm is shared. -/
def WLEDEmulator.statePostBody (state : JVal) : Except PyErr (Option JVal) := do
  let hasSeg ← pyContains "seg" state
  if hasSeg then
    let seg ← pySubscriptStr state "seg"
    if seg.truthy then
      let seg0 ← pySubscriptNat seg 0
      let hasCol ← pyContains "col" seg0
      if hasCol then
        let colors ← pySubscriptStr seg0 "col"
        if colors.truthy then
          let c0 ← pySubscriptNat colors 0
          let n ← pyLen c0
          if n = 3 then return (some c0) else return none
        else return none
      else return none
    else return none
  else return none

/-- Observable outcome of one `POST /json/state` request: the HTTP status
sent, whether the success body was written, and the value passed to
`device.flush` (if any). -/
structure PostOutcome where
  status : Nat
  success : Bool
  flushedArg : Option JVal
deriving Repr, DecidableEq

/-- `WLEDEmulator.do_POST` for path `/json/state` (src/zengeeled.py, lines
207–226).  `parsed` is the result of `json.loads` on the request body
(`none` models a body that is not valid JSON, in which case `json.loads`
raises inside the `try`).  Any exception in the `try` block is answered
with status 500; otherwise status 200 with the success body is sent, whether
or not a flush happened. -/
def WLEDEmulator.do_POST_jsonState (parsed : Option JVal) : PostOutcome :=
  match parsed with
  | none => ⟨500, false, none⟩
  | some state =>
    match WLEDEmulator.statePostBody state with
    | .ok fl => ⟨200, true, fl⟩
    | .error _ => ⟨500, false, none⟩

/-- View of a JSON value as the Python sequence `flush` iterates: a list is
itself, a string is its one-character substrings.  For the remaining values
Python's `len`/indexing inside `flush` raises, the exception is caught by
`flush`'s own `except` block and the call is a no-op — modelled by the empty
list, on which `flush` is likewise a no-op. -/
def asPyList : JVal → List JVal
  | .arr xs => xs
  | .str s => s.toList.map (fun c => .str (String.mk [c]))
  | _ => []

/-- One `POST /json/state` request followed by the `device.flush` call the
handler makes (src/zengeeled.py, line 217): returns the HTTP outcome and the
device state afterwards. -/
def WLEDEmulator.handleStatePost (driverOk : Bool) (device : DeviceState JVal)
    (parsed : Option JVal) : PostOutcome × DeviceState JVal :=
  let out := WLEDEmulator.do_POST_jsonState parsed
  match out.flushedArg with
  | some v => (out, (ZenggeDevice.flush driverOk device (asPyList v)).state)
  | none => (out, device)

/-- The all-zero color slot `[0, 0, 0]` used in the state dictionary. -/
def rgbZero : JVal := .arr [.num 0, .num 0, .num 0]

/-- `WLEDEmulator._get_state_dict` (src/zengeeled.py, lines 171–186): the
state object served by `GET /json`, built from the device state; the first
segment's color list is `[device.last_rgb, [0,0,0], [0,0,0]]`. -/
def WLEDEmulator._get_state_dict (device : DeviceState JVal) : JVal :=
  .obj [
    ("on", .bool device.isActive),
    ("bri", .num 255),
    ("transition", .num 0),
    ("ps", .num (-1)),
    ("pl", .num (-1)),
    ("seg", .arr [
      .obj [
        ("id", .num 0), ("start", .num 0), ("stop", .num 1), ("len", .num 1),
        ("on", .bool true), ("bri", .num 255),
        ("col", .arr [.arr device.lastRgb, rgbZero, rgbZero]),
        ("fx", .num 0), ("sx", .num 128), ("ix", .num 128), ("pal", .num 0),
        ("sel", .bool true), ("rev", .bool false), ("mi", .bool false)
      ]
    ])
  ]

/-- Reading `state['seg'][0]['col'][0]` out of a served state object — the
first segment's first color slot, as a client of `GET /json` sees it. -/
def readFirstColor (st : JVal) : Except PyErr JVal := do
  let seg ← pySubscriptStr st "seg"
  let seg0 ← pySubscriptNat seg 0
  let col ← pySubscriptStr seg0 "col"
  pySubscriptNat col 0

end Zengeeled

/-- The first three elements of a list of length at least 3, read positionally. -/
theorem take_three_eq (l : List Nat) (h : 3 ≤ l.length) :
    l.take 3 = [l.getD 0 0, l.getD 1 0, l.getD 2 0] := by
  rcases l with _ | ⟨a, _ | ⟨b, _ | ⟨c, rest⟩⟩⟩ <;> simp_all [List.getD]

/-- A three-byte slice `l[i:i+3)` of a sufficiently long list, read
positionally. -/
theorem drop_take_three (l : List Nat) (i : Nat) (h : i + 3 ≤ l.length) :
    (l.drop i).take 3 = [l.getD i 0, l.getD (i + 1) 0, l.getD (i + 2) 0] := by
  have h3 : 3 ≤ (l.drop i).length := by
    simp only [List.length_drop]; omega
  rw [take_three_eq _ h3]
  simp [List.getD_eq_getElem?_getD, List.getElem?_drop]

/-- The sACN payload refuting C1 as stated: length 130, universe field 1 at
bytes [113:115), bytes [126:129) = 9, 8, 7, and one further byte 5. -/
def c1data : List Nat :=
  List.replicate 113 0 ++ [0, 1] ++ List.replicate 11 0 ++ [9, 8, 7, 5]

set_option maxRecDepth 8192 in
/-- C1 (counterexample): on a 130-byte sACN payload whose universe field
matches, `receive_packet` returns the whole tail `[9, 8, 7, 5]` from offset
126 onward, not exactly the RGB triple at bytes [126:129). -/
theorem C1_counterexample :
    126 ≤ c1data.length ∧
    256 * c1data.getD 113 0 + c1data.getD 114 0 = 1 ∧
    Openmagic.E131Listener.receive_packet 1 c1data = some [9, 8, 7, 5] ∧
    some [9, 8, 7, 5] ≠
      some [c1data.getD 126 0, c1data.getD 127 0, c1data.getD 128 0] := by
  refine ⟨by decide, by decide, by decide, by decide⟩

/-- C1 (amended): for every sACN payload of length at least 126 whose
big-endian 16-bit universe field at bytes [113:115) equals the configured
universe, `receive_packet` returns the list of all bytes from offset 126 to
the end of the payload (so exactly the RGB triple only when the payload is
exactly 129 bytes long); if the universe field differs from the configured
universe, it returns `none`. -/
theorem C1_amended (expectedUniverse : Nat) (data : List Nat)
    (hlen : 126 ≤ data.length) :
    (256 * data.getD 113 0 + data.getD 114 0 = expectedUniverse →
      Openmagic.E131Listener.receive_packet expectedUniverse data
        = some (data.drop 126)) ∧
    (256 * data.getD 113 0 + data.getD 114 0 ≠ expectedUniverse →
      Openmagic.E131Listener.receive_packet expectedUniverse data = none) := by
  have h : ¬ data.length < 126 := by omega
  unfold Openmagic.E131Listener.receive_packet
  simp only [if_neg h]
  constructor <;> intro hu <;>
    simp only [List.getD_eq_getElem?_getD] at hu <;> simp [hu]

set_option maxRecDepth 8192 in
/-- C1 witness: the amended theorem applied to the concrete 130-byte payload
`c1data`, once with the matching universe 1 and once with universe 2. -/
theorem C1_witness :
    Openmagic.E131Listener.receive_packet 1 c1data = some (c1data.drop 126) ∧
    Openmagic.E131Listener.receive_packet 2 c1data = none := by
  exact ⟨(C1_amended 1 c1data (by decide)).1 (by decide),
         (C1_amended 2 c1data (by decide)).2 (by decide)⟩

/-- C2 (counterexample): when the driver's power-off call raises and the
controller was active, `deactivate` leaves the active flag set — the flag is
not cleared "regardless of whether the driver's power-off call succeeded". -/
theorem C2_counterexample :
    Openmagic.ZenggeDevice.deactivate false true = true ∧ true ≠ false := by
  decide

/-- C2 (amended): after `deactivate()` the active flag is cleared when the
driver's power-off call succeeds; when the call raises, the flag keeps its
previous value (the assignment is skipped by the exception). -/
theorem C2_amended (isActive : Bool) :
    Openmagic.ZenggeDevice.deactivate true isActive = false ∧
    Openmagic.ZenggeDevice.deactivate false isActive = isActive := by
  cases isActive <;> exact ⟨rfl, rfl⟩

/-- C3 (counterexample): an active controller whose `last_rgb` already equals
the pushed frame — the state of a freshly activated device and the all-zero
frame — makes both `flush` calls silent no-ops: zero driver `setColor` calls,
not exactly one. -/
theorem C3_counterexample :
    ((Zengeeled.ZenggeDevice.flush true ⟨true, [0, 0, 0], 0⟩ [0, 0, 0]).setColorCalls
      ++ (Zengeeled.ZenggeDevice.flush true
            (Zengeeled.ZenggeDevice.flush true ⟨true, [0, 0, 0], 0⟩ [0, 0, 0]).state
            [0, 0, 0]).setColorCalls).length = 0 ∧ (0 : Nat) ≠ 1 := by
  decide

/-- C3 (amended): for an active controller whose `last_rgb` differs from the
frame and whose driver call succeeds, calling `flush` twice in succession
with that identical frame results in exactly one driver `setColor` call — the
second call is a silent no-op because the frame then equals `last_rgb`; if
the frame already equals `last_rgb`, both calls are no-ops and no driver
call is made. -/
theorem C3_amended (s : Zengeeled.DeviceState Nat) (r g b : Nat)
    (hact : s.isActive = true) (hdiff : s.lastRgb ≠ [r, g, b]) :
    (Zengeeled.ZenggeDevice.flush true s [r, g, b]).setColorCalls
      ++ (Zengeeled.ZenggeDevice.flush true
            (Zengeeled.ZenggeDevice.flush true s [r, g, b]).state
            [r, g, b]).setColorCalls = [(r, g, b)] := by
  simp [Zengeeled.ZenggeDevice.flush, hact, hdiff]

/-- C3 witness: the amended theorem applied to a freshly activated device
(`last_rgb = [0,0,0]`, `update_count = 0`) and the frame `(1, 2, 3)`. -/
theorem C3_witness :
    (Zengeeled.ZenggeDevice.flush true ⟨true, [0, 0, 0], 0⟩ [1, 2, 3]).setColorCalls
      ++ (Zengeeled.ZenggeDevice.flush true
            (Zengeeled.ZenggeDevice.flush true ⟨true, [0, 0, 0], 0⟩ [1, 2, 3]).state
            [1, 2, 3]).setColorCalls = [(1, 2, 3)] :=
  C3_amended ⟨true, [0, 0, 0], 0⟩ 1 2 3 rfl (by decide)

/-- C4 (counterexample): the `flush` of src/openmagic.py forwards the frame
`(1, 2, 3)` to the driver as `setRgb(2, 1, 3)` — red and green swapped, not
raw RGB pass-through. -/
theorem C4_counterexample :
    Openmagic.ZenggeDevice.flush ⟨true⟩ [1, 2, 3] = some (2, 1, 3) ∧
    ((2 : Nat), (1 : Nat), (3 : Nat)) ≠ (1, 2, 3) := by
  decide

/-- C4 (amended): the `flush` of src/zengeeled.py forwards a new frame
`(r, g, b)` to the driver unchanged, updates `last_rgb` and increments
`update_count` (for an active controller, a frame differing from `last_rgb`,
and a succeeding driver call); the `flush` of src/openmagic.py instead
forwards every frame with red and green swapped — `setRgb(g, r, b)` — and
keeps no `last_rgb` or `update_count`. -/
theorem C4_amended (s : Zengeeled.DeviceState Nat) (r g b : Nat)
    (hact : s.isActive = true) (hdiff : s.lastRgb ≠ [r, g, b]) :
    ((Zengeeled.ZenggeDevice.flush true s [r, g, b]).setColorCalls = [(r, g, b)] ∧
     (Zengeeled.ZenggeDevice.flush true s [r, g, b]).state.lastRgb = [r, g, b] ∧
     (Zengeeled.ZenggeDevice.flush true s [r, g, b]).state.updateCount
       = s.updateCount + 1) ∧
    (∀ r' g' b' : Nat,
      Openmagic.ZenggeDevice.flush ⟨true⟩ [r', g', b'] = some (g', r', b')) := by
  constructor
  · refine ⟨?_, ?_, ?_⟩ <;> simp [Zengeeled.ZenggeDevice.flush, hact, hdiff]
  · intro r' g' b'
    simp [Openmagic.ZenggeDevice.flush]

/-- C4 witness: the amended theorem applied to a freshly activated device and
the frame `(9, 8, 7)`. -/
theorem C4_witness :
    ((Zengeeled.ZenggeDevice.flush true ⟨true, [0, 0, 0], 0⟩ [9, 8, 7]).setColorCalls
        = [(9, 8, 7)] ∧
     (Zengeeled.ZenggeDevice.flush true ⟨true, [0, 0, 0], 0⟩ [9, 8, 7]).state.lastRgb
        = [9, 8, 7] ∧
     (Zengeeled.ZenggeDevice.flush true ⟨true, [0, 0, 0], 0⟩ [9, 8, 7]).state.updateCount
        = 0 + 1) ∧
    (∀ r' g' b' : Nat,
      Openmagic.ZenggeDevice.flush ⟨true⟩ [r', g', b'] = some (g', r', b')) :=
  C4_amended ⟨true, [0, 0, 0], 0⟩ 9 8 7 rfl (by decide)

/-- C5 (confirmed): every payload shorter than its variant's minimum length
— 126 for sACN, 5 for DRGB (tag 2), 6 for WARLS (tag 1), 7 for DNRGB
(tag 4) — decodes to `none`.  The embedded decoders read bytes only through
bounds-checked `getD`/`drop`/`take`, mirroring Python's checked indexing, so
no byte past the end of the payload is ever read. -/
theorem C5_short_payloads (expectedUniverse : Nat) (data : List Nat) :
    (data.length < 126 →
      Openmagic.E131Listener.receive_packet expectedUniverse data = none) ∧
    (data.getD 0 0 = 2 → data.length < 5 →
      Zengeeled.WLEDUDPListener.receive_packet data = none) ∧
    (data.getD 0 0 = 1 → data.length < 6 →
      Zengeeled.WLEDUDPListener.receive_packet data = none) ∧
    (data.getD 0 0 = 4 → data.length < 7 →
      Zengeeled.WLEDUDPListener.receive_packet data = none) := by
  refine ⟨fun h => by simp [Openmagic.E131Listener.receive_packet, h], ?_, ?_, ?_⟩
  all_goals intro htag hlen
  all_goals simp only [List.getD_eq_getElem?_getD] at htag
  all_goals by_cases h2 : data.length < 2
  all_goals
    simp [Zengeeled.WLEDUDPListener.receive_packet, h2, htag, Nat.not_le.mpr hlen]

/-- C5 witness: the theorem applied to one concrete too-short payload per
variant. -/
theorem C5_witness :
    Openmagic.E131Listener.receive_packet 1 [0, 1, 2] = none ∧
    Zengeeled.WLEDUDPListener.receive_packet [2, 0, 10, 20] = none ∧
    Zengeeled.WLEDUDPListener.receive_packet [1, 0, 0, 255, 0] = none ∧
    Zengeeled.WLEDUDPListener.receive_packet [4, 0, 0, 0, 1, 2] = none :=
  ⟨(C5_short_payloads 1 [0, 1, 2]).1 (by decide),
   (C5_short_payloads 1 [2, 0, 10, 20]).2.1 (by decide) (by decide),
   (C5_short_payloads 1 [1, 0, 0, 255, 0]).2.2.1 (by decide) (by decide),
   (C5_short_payloads 1 [4, 0, 0, 0, 1, 2]).2.2.2 (by decide) (by decide)⟩

/-- C6 (confirmed): every payload meeting its variant's tag and minimum
length decodes to the variant's fixed RGB slice — tag 2 (DRGB) to bytes
[2:5), tag 1 (WARLS) to bytes [3:6), tag 4 (DNRGB) to bytes [4:7). -/
theorem C6_variant_slices (data : List Nat) :
    (data.getD 0 0 = 2 → 5 ≤ data.length →
      Zengeeled.WLEDUDPListener.receive_packet data
        = some [data.getD 2 0, data.getD 3 0, data.getD 4 0]) ∧
    (data.getD 0 0 = 1 → 6 ≤ data.length →
      Zengeeled.WLEDUDPListener.receive_packet data
        = some [data.getD 3 0, data.getD 4 0, data.getD 5 0]) ∧
    (data.getD 0 0 = 4 → 7 ≤ data.length →
      Zengeeled.WLEDUDPListener.receive_packet data
        = some [data.getD 4 0, data.getD 5 0, data.getD 6 0]) := by
  refine ⟨?_, ?_, ?_⟩
  all_goals intro htag hlen
  all_goals have h2 : ¬ data.length < 2 := by omega
  all_goals simp only [List.getD_eq_getElem?_getD] at htag
  · simp [Zengeeled.WLEDUDPListener.receive_packet, h2, htag, hlen,
          drop_take_three data 2 (by omega)]
  · simp [Zengeeled.WLEDUDPListener.receive_packet, h2, htag, hlen,
          drop_take_three data 3 (by omega)]
  · simp [Zengeeled.WLEDUDPListener.receive_packet, h2, htag, hlen,
          drop_take_three data 4 (by omega)]

/-- C6 witness: the theorem applied to the three concrete payloads named by
the claim: `[2,0,10,20,30]`, `[1,0,0,255,0,0]`, `[4,0,0,0,1,2,3]`. -/
theorem C6_witness :
    Zengeeled.WLEDUDPListener.receive_packet [2, 0, 10, 20, 30]
      = some [10, 20, 30] ∧
    Zengeeled.WLEDUDPListener.receive_packet [1, 0, 0, 255, 0, 0]
      = some [255, 0, 0] ∧
    Zengeeled.WLEDUDPListener.receive_packet [4, 0, 0, 0, 1, 2, 3]
      = some [1, 2, 3] :=
  ⟨(C6_variant_slices [2, 0, 10, 20, 30]).1 (by decide) (by decide),
   (C6_variant_slices [1, 0, 0, 255, 0, 0]).2.1 (by decide) (by decide),
   (C6_variant_slices [4, 0, 0, 0, 1, 2, 3]).2.2 (by decide) (by decide)⟩

/-- Shared helper: the `/json/state` POST handler on a parsed body whose
`seg[0]` is an object with a `col` list whose first entry is a 3-element
list answers 200 with the success body and flushes that first entry. -/
theorem statePost_ok (fs f2 : List (String × JVal)) (segTail colTail : List JVal)
    (x y z : JVal)
    (hseg : lookupField fs "seg" = some (.arr (.obj f2 :: segTail)))
    (hcol : lookupField f2 "col" = some (.arr (.arr [x, y, z] :: colTail))) :
    Zengeeled.WLEDEmulator.do_POST_jsonState (some (.obj fs))
      = ⟨200, true, some (.arr [x, y, z])⟩ := by
  simp [Zengeeled.WLEDEmulator.do_POST_jsonState,
        Zengeeled.WLEDEmulator.statePostBody, pyContains, pySubscriptStr,
        pySubscriptNat, pyLen, JVal.truthy, hseg, hcol,
        Bind.bind, Except.bind, Pure.pure, Except.pure]

/-- C7 (counterexample): the body `\x7b\x7d` — valid JSON without the expected
shape — is answered 200 with the success body and no flush, not with a
server-error status. -/
theorem C7_counterexample :
    Zengeeled.WLEDEmulator.do_POST_jsonState (some (.obj []))
      = ⟨200, true, none⟩ ∧ (200 : Nat) ≠ 500 := by
  exact ⟨rfl, by decide⟩

/-- C7 (amended): a POST to `/json/state` whose body contains `seg[0].col[0]`
as a 3-element list causes the controller to receive that value via `flush`
and the 200 response with body `\x7b"success":true\x7d`; a body that is not
valid JSON (or whose traversal raises) is answered 500; a valid JSON body
merely missing the expected keys is also answered 200 with the success body,
without a flush. -/
theorem C7_amended (fs f2 : List (String × JVal)) (segTail colTail : List JVal)
    (x y z : JVal) :
    (lookupField fs "seg" = some (.arr (.obj f2 :: segTail)) →
      lookupField f2 "col" = some (.arr (.arr [x, y, z] :: colTail)) →
      Zengeeled.WLEDEmulator.do_POST_jsonState (some (.obj fs))
        = ⟨200, true, some (.arr [x, y, z])⟩) ∧
    Zengeeled.WLEDEmulator.do_POST_jsonState none = ⟨500, false, none⟩ ∧
    (lookupField fs "seg" = none →
      Zengeeled.WLEDEmulator.do_POST_jsonState (some (.obj fs))
        = ⟨200, true, none⟩) := by
  refine ⟨statePost_ok fs f2 segTail colTail x y z, rfl, ?_⟩
  intro hseg
  simp [Zengeeled.WLEDEmulator.do_POST_jsonState,
        Zengeeled.WLEDEmulator.statePostBody, pyContains, hseg,
        Bind.bind, Except.bind, Pure.pure, Except.pure]

/-- C7 witness: the amended theorem applied to the body
`seg: [ col: [[1,2,3]] ]` and to an unparseable body. -/
theorem C7_witness :
    Zengeeled.WLEDEmulator.do_POST_jsonState
        (some (.obj [("seg", .arr [.obj [("col",
          .arr [.arr [.num 1, .num 2, .num 3]])]])]))
      = ⟨200, true, some (.arr [.num 1, .num 2, .num 3])⟩ ∧
    Zengeeled.WLEDEmulator.do_POST_jsonState none = ⟨500, false, none⟩ :=
  ⟨(C7_amended [("seg", .arr [.obj [("col", .arr [.arr [.num 1, .num 2, .num 3]])]])]
      [("col", .arr [.arr [.num 1, .num 2, .num 3]])] [] []
      (.num 1) (.num 2) (.num 3)).1 (by decide) (by decide),
   (C7_amended [] [] [] [] .null .null .null).2.1⟩

/-- C8 (confirmed): whenever the known-device list is non-empty,
`get_active_device` returns an address from that list; and if the previously
active address is no longer in the list, it reassigns the active address to
the first known device and returns it. -/
theorem C8_active_membership (scanResult : List String)
    (s : Openmagic.ScannerState) (hne : s.devices ≠ []) :
    (∃ a, (Openmagic.DeviceScanner.get_active_device scanResult s).1 = some a ∧
       a ∈ s.devices) ∧
    (∀ p, s.active_device = some p → p ∉ s.devices →
       (Openmagic.DeviceScanner.get_active_device scanResult s).1
         = some (s.devices.headD "") ∧
       (Openmagic.DeviceScanner.get_active_device scanResult s).2.active_device
         = some (s.devices.headD "")) := by
  obtain ⟨devs, act⟩ := s
  simp only at hne
  obtain ⟨d, ds, rfl⟩ := List.exists_cons_of_ne_nil hne
  cases act with
  | none =>
    constructor
    · refine ⟨d, ?_, ?_⟩
      · simp [Openmagic.DeviceScanner.get_active_device]
      · exact List.mem_cons_self d ds
    · intro p hp
      simp at hp
  | some a =>
    constructor
    · by_cases hmem : a ∈ d :: ds
      · exact ⟨a, by simp [Openmagic.DeviceScanner.get_active_device, hmem], hmem⟩
      · exact ⟨d, by simp [Openmagic.DeviceScanner.get_active_device, hmem], by simp⟩
    · intro p hp hnotin
      obtain rfl : a = p := by simpa using hp
      constructor <;>
        simp [Openmagic.DeviceScanner.get_active_device, hnotin]

/-- C8 witness: the theorem applied to a scanner state whose active address
"c" has dropped out of the known-device list `["a", "b"]`. -/
theorem C8_witness :
    (∃ a, (Openmagic.DeviceScanner.get_active_device []
             ⟨["a", "b"], some "c"⟩).1 = some a ∧ a ∈ ["a", "b"]) ∧
    (Openmagic.DeviceScanner.get_active_device [] ⟨["a", "b"], some "c"⟩).1
      = some "a" := by
  have h := C8_active_membership [] ⟨["a", "b"], some "c"⟩ (by decide)
  exact ⟨h.1, (h.2 "c" rfl (by decide)).1⟩

/-- Shared helper: a successful `flush` of the exact frame `[r, g, b]` on an
active device leaves `last_rgb = [r, g, b]`, whether the frame was new (it
is stored) or already current (the no-op keeps it). -/
theorem flush_lastRgb {α : Type} [DecidableEq α] [Inhabited α]
    (s : Zengeeled.DeviceState α) (r g b : α) (hact : s.isActive = true) :
    (Zengeeled.ZenggeDevice.flush true s [r, g, b]).state.lastRgb
      = [r, g, b] := by
  by_cases hdiff : s.lastRgb = [r, g, b] <;>
    simp [Zengeeled.ZenggeDevice.flush, hact, hdiff]

/-- Shared helper: reading `seg[0].col[0]` back out of the state object
served by `GET /json` yields exactly the device's `last_rgb`. -/
theorem readFirstColor_state_dict (device : Zengeeled.DeviceState JVal) :
    Zengeeled.readFirstColor (Zengeeled.WLEDEmulator._get_state_dict device)
      = .ok (.arr device.lastRgb) := rfl

/-- C9 (confirmed): a frame pushed through `POST /json/state` to an active
controller whose driver call succeeds is answered 200/success, and a
subsequent `GET /json` serves a state object whose first segment's first
color slot is that same RGB triple. -/
theorem C9_roundtrip (device : Zengeeled.DeviceState JVal)
    (fs f2 : List (String × JVal)) (segTail colTail : List JVal) (x y z : JVal)
    (hact : device.isActive = true)
    (hseg : lookupField fs "seg" = some (.arr (.obj f2 :: segTail)))
    (hcol : lookupField f2 "col" = some (.arr (.arr [x, y, z] :: colTail))) :
    (Zengeeled.WLEDEmulator.handleStatePost true device (some (.obj fs))).1
      = ⟨200, true, some (.arr [x, y, z])⟩ ∧
    Zengeeled.readFirstColor
      (Zengeeled.WLEDEmulator._get_state_dict
        (Zengeeled.WLEDEmulator.handleStatePost true device (some (.obj fs))).2)
      = .ok (.arr [x, y, z]) := by
  have hpost := statePost_ok fs f2 segTail colTail x y z hseg hcol
  constructor
  · simp only [Zengeeled.WLEDEmulator.handleStatePost, hpost]
  · simp only [Zengeeled.WLEDEmulator.handleStatePost, hpost]
    rw [readFirstColor_state_dict]
    simp only [Zengeeled.asPyList]
    rw [flush_lastRgb device x y z hact]

/-- C9 witness: the round-trip theorem applied to a freshly activated device
and the posted triple `(9, 8, 7)`. -/
theorem C9_witness :
    (Zengeeled.WLEDEmulator.handleStatePost true
        ⟨true, [JVal.num 0, .num 0, .num 0], 0⟩
        (some (.obj [("seg", .arr [.obj [("col",
          .arr [.arr [.num 9, .num 8, .num 7]])]])]))).1
      = ⟨200, true, some (.arr [.num 9, .num 8, .num 7])⟩ ∧
    Zengeeled.readFirstColor
      (Zengeeled.WLEDEmulator._get_state_dict
        (Zengeeled.WLEDEmulator.handleStatePost true
          ⟨true, [JVal.num 0, .num 0, .num 0], 0⟩
          (some (.obj [("seg", .arr [.obj [("col",
            .arr [.arr [.num 9, .num 8, .num 7]])]])]))).2)
      = .ok (.arr [.num 9, .num 8, .num 7]) :=
  C9_roundtrip ⟨true, [JVal.num 0, .num 0, .num 0], 0⟩
    [("seg", .arr [.obj [("col", .arr [.arr [.num 9, .num 8, .num 7]])]])]
    [("col", .arr [.arr [.num 9, .num 8, .num 7]])] [] []
    (.num 9) (.num 8) (.num 7) rfl (by decide) (by decide)

/-- C10 (confirmed): if the driver `setColor` call raises during `flush` on
an active controller with a frame differing from `last_rgb`, then `last_rgb`
keeps its previous value, `update_count` has already been incremented, and
an immediately repeated identical frame is not suppressed: the driver call
is re-attempted. -/
theorem C10_driver_failure (s : Zengeeled.DeviceState Nat) (r g b : Nat)
    (d2 : Bool) (hact : s.isActive = true) (hdiff : s.lastRgb ≠ [r, g, b]) :
    (Zengeeled.ZenggeDevice.flush false s [r, g, b]).setColorCalls
      = [(r, g, b)] ∧
    (Zengeeled.ZenggeDevice.flush false s [r, g, b]).state.lastRgb
      = s.lastRgb ∧
    (Zengeeled.ZenggeDevice.flush false s [r, g, b]).state.updateCount
      = s.updateCount + 1 ∧
    (Zengeeled.ZenggeDevice.flush d2
        (Zengeeled.ZenggeDevice.flush false s [r, g, b]).state
        [r, g, b]).setColorCalls = [(r, g, b)] := by
  refine ⟨?_, ?_, ?_, ?_⟩ <;>
    cases d2 <;> simp [Zengeeled.ZenggeDevice.flush, hact, hdiff]

/-- C10 witness: the theorem applied to a freshly activated device, the frame
`(5, 6, 7)`, a failing first driver call, and a succeeding retry. -/
theorem C10_witness :
    (Zengeeled.ZenggeDevice.flush false ⟨true, [0, 0, 0], 0⟩ [5, 6, 7]).setColorCalls
      = [(5, 6, 7)] ∧
    (Zengeeled.ZenggeDevice.flush false ⟨true, [0, 0, 0], 0⟩ [5, 6, 7]).state.lastRgb
      = [0, 0, 0] ∧
    (Zengeeled.ZenggeDevice.flush false ⟨true, [0, 0, 0], 0⟩ [5, 6, 7]).state.updateCount
      = 0 + 1 ∧
    (Zengeeled.ZenggeDevice.flush true
        (Zengeeled.ZenggeDevice.flush false ⟨true, [0, 0, 0], 0⟩ [5, 6, 7]).state
        [5, 6, 7]).setColorCalls = [(5, 6, 7)] :=
  C10_driver_failure ⟨true, [0, 0, 0], 0⟩ 5 6 7 true rfl (by decide)
